import Mathlib

/-
Verification of the menu-resolution and auto-post scheduling engine of
CantinaBot (src/CantinaBot.py) against its specification.

Embedding conventions, chosen once for the whole file:

- Calendar dates handled by the calendar-walking code (build_candidate_dates,
  resolve_menu_images, the scheduler helpers) are modelled as day numbers
  (an Int counting days from a fixed Monday epoch). The Python expressions
  date +- timedelta(days=k) become d + k and d - k, and date.weekday()
  becomes d % 7 via Int.emod, which like the Python operator is always in
  [0, 7) for a positive modulus. Monday is 0 and Sunday is 6, matching the
  Python convention, so "weekend" is weekday >= 5.

- Timestamps (datetime values) are modelled as a day number plus minutes
  past midnight. All datetimes in the source live in one time zone
  (Europe/Bucharest); the conversion _to_romania is the identity here, and
  daylight-saving shifts are outside the model. timedelta(days=1) on a
  datetime keeps the wall-clock time, which the model mirrors by keeping
  the minutes field.

- The date passed to make_cache_key and the per-cantina URL builders is a
  year/month/day record (PyDate), because make_cache_key formats the date
  with strftime as a zero-padded YYYY-MM-DD string. Strings are modelled
  as lists of character codes (Str), 45 being the hyphen and 58 the colon.

- Byte buffers (PDF bytes, rendered page images) are opaque and modelled
  as Nat; a rendered document is a List Nat.

- The network fetch plus PDF render step inside fetch_and_cache_pdf
  (requests.get, raise_for_status, fitz.open and the page loop) is a
  black-box primitive, modelled as an oracle taking the attempt number and
  the URL. FetchOutcome.err stands for any exception raised in that block
  (network error, HTTP error status, unparsable document), which the
  source catches and logs before moving to the next candidate URL.
  FetchOutcome.ok pages stands for a successful download that rendered to
  the given page list, possibly empty.

- Functions that in the source perform IO, take locks, or sleep are
  modelled by their effect on the explicitly threaded state: the cache is
  passed in and returned, and the list of URLs actually fetched (in
  order) is returned as a trace so that attempt counts and attempt order
  are provable. Locks, logging and the inter-round sleep have no
  observable effect in a single-threaded model and are dropped.
-/

namespace CantinaBot

/-- Strings are lists of character codes. -/
abbrev Str := List Nat

/-- Weekday of a day number: 0 is Monday through 6 is Sunday, as in the
Python date.weekday method. -/
def weekday (d : Int) : Int := d % 7

/-- A Python datetime.date value as the year, month and day fields that
strftime formats. Python enforces 1 <= year <= 9999, 1 <= month <= 12
and 1 <= day <= 31; those bounds appear as hypotheses where needed. -/
structure PyDate where
  year : Nat
  month : Nat
  day : Nat
deriving DecidableEq

/-- The strftime format %Y-%m-%d used by make_cache_key: the year
zero-padded to four digits, a hyphen (code 45), the month and day each
zero-padded to two digits. -/
def isoDigits (t : PyDate) : Str :=
  [48 + t.year / 1000 % 10, 48 + t.year / 100 % 10, 48 + t.year / 10 % 10,
   48 + t.year % 10, 45,
   48 + t.month / 10 % 10, 48 + t.month % 10, 45,
   48 + t.day / 10 % 10, 48 + t.day % 10]

/-- Source line 222: the cache key is the cantina key, a colon (code 58),
and the ISO-formatted date. -/
def make_cache_key (cantina_key : Str) (target_date : PyDate) : Str :=
  cantina_key ++ 58 :: isoDigits target_date

/-- Source line 137: the per-cafeteria configuration record. close_time
is minutes past midnight. -/
structure CantinaConfig where
  key : Str
  display_name : Str
  close_time : Nat
  url_builder : PyDate → List Str
  auto_post : Bool

/-- The pdf_cache dictionary: an association list from cache key to page
list, newest binding first, as produced by dict assignment. -/
abbrev Cache := List (Str × List Nat)

/-- Dictionary lookup pdf_cache.get(key), reading the newest binding. -/
def cacheGet (c : Cache) (k : Str) : Option (List Nat) :=
  match c with
  | [] => none
  | (k2, v) :: rest => if k2 = k then some v else cacheGet rest k

/-- Dictionary assignment pdf_cache[key] = value (store_cached_images). -/
def cacheStore (c : Cache) (k : Str) (v : List Nat) : Cache :=
  (k, v) :: c

/-- Outcome of one download-and-render attempt at one URL: err is any
exception caught by the except branch at source line 288, ok is a
successful render to the given (possibly empty) page list. -/
inductive FetchOutcome where
  | err : FetchOutcome
  | ok : List Nat → FetchOutcome

/-- How one pass over the candidate URLs (the inner for loop at source
line 268) ends. -/
inductive RoundResult where
  | exhausted : RoundResult
  | emptyAbort : RoundResult
  | success : List Nat → RoundResult

/-- The inner for loop of fetch_and_cache_pdf over the candidate URLs,
for one attempt round. Returns how the round ended together with the
URLs fetched, in order. An exception moves to the next URL; a render
with zero pages hits the return None at source line 283 (emptyAbort);
a non-empty render is a success. -/
def facpRound (f : Str → FetchOutcome) : List Str → RoundResult × List Str
  | [] => (RoundResult.exhausted, [])
  | u :: us =>
    match f u with
    | FetchOutcome.err =>
        ((facpRound f us).1, u :: (facpRound f us).2)
    | FetchOutcome.ok pages =>
        if pages = [] then (RoundResult.emptyAbort, [u])
        else (RoundResult.success pages, [u])

/-- The outer for loop of fetch_and_cache_pdf: attempt rounds numbered
from 1 up to retries. A round that exhausts all URLs is followed by the
next round (after a sleep, dropped here); emptyAbort and success end the
loop. The fetch oracle receives the attempt number and the URL. -/
def facpLoop (fetch : Nat → Str → FetchOutcome) (urls : List Str) :
    Nat → Nat → RoundResult × List Str
  | _, 0 => (RoundResult.exhausted, [])
  | attempt, rounds + 1 =>
    match facpRound (fetch attempt) urls with
    | (RoundResult.exhausted, t) =>
        ((facpLoop fetch urls (attempt + 1) rounds).1,
          t ++ (facpLoop fetch urls (attempt + 1) rounds).2)
    | (RoundResult.emptyAbort, t) => (RoundResult.emptyAbort, t)
    | (RoundResult.success pages, t) => (RoundResult.success pages, t)

/-- The deduplication loop at source lines 256-262: preserve order,
drop duplicates and falsy (empty) candidates. seen accumulates the URLs
already kept. -/
def dedupUrlsAux (seen : List Str) : List Str → List Str
  | [] => []
  | c :: rest =>
    if c = [] ∨ c ∈ seen then dedupUrlsAux seen rest
    else c :: dedupUrlsAux (c :: seen) rest

/-- Candidate URL deduplication as performed by fetch_and_cache_pdf. The
isinstance-str branch of the source wraps a single string in a list; the
typed url_builder always returns a list, so that branch is vacuous
here. -/
def dedupUrls (raw : List Str) : List Str := dedupUrlsAux [] raw

/-- Source lines 241-294: fetch_and_cache_pdf. Returns the Python return
value (None, or the page list with the served-from-cache flag), the
cache after the call, and the trace of URLs fetched in order. The cache
is consulted first; on a miss the deduplicated candidate list is tried
across retry rounds, and a successful non-empty render is written
through to the cache. -/
def fetch_and_cache_pdf (fetch : Nat → Str → FetchOutcome) (cache : Cache)
    (cantina : CantinaConfig) (target_date : PyDate) (retries : Nat) :
    Option (List Nat × Bool) × Cache × List Str :=
  match cacheGet cache (make_cache_key cantina.key target_date) with
  | some cached => (some (cached, true), cache, [])
  | none =>
    if dedupUrls (cantina.url_builder target_date) = [] then (none, cache, [])
    else
      match facpLoop fetch (dedupUrls (cantina.url_builder target_date)) 1 retries with
      | (RoundResult.exhausted, t) => (none, cache, t)
      | (RoundResult.emptyAbort, t) => (none, cache, t)
      | (RoundResult.success pages, t) =>
          (some (pages, false),
            cacheStore cache (make_cache_key cantina.key target_date) pages, t)

/-- Source lines 297-317: the loop body of resolve_menu_images. Dates
are day numbers; the call to fetch_and_cache_pdf (with the cantina,
retries and delay it closes over) is abstracted as the oracle fetchFn,
since the claims about this function concern only its control flow. The
isinstance-date guard of the source is vacuous in the typed model. The
function returns the Python return value together with the trace of
dates for which the fetch-render pipeline was invoked, in order. seen
collects the dates already processed. -/
def resolve_menu_images_aux (fetchFn : Int → Option (List Nat × Bool)) :
    List Int → List Int → Option (Int × List Nat × Bool) × List Int
  | [], _ => (none, [])
  | x :: rest, seen =>
    if x ∈ seen then resolve_menu_images_aux fetchFn rest seen
    else if 5 ≤ weekday x then resolve_menu_images_aux fetchFn rest (x :: seen)
    else
      match fetchFn x with
      | none =>
          ((resolve_menu_images_aux fetchFn rest (x :: seen)).1,
            x :: (resolve_menu_images_aux fetchFn rest (x :: seen)).2)
      | some (images, from_cache) => (some (x, images, from_cache), [x])

/-- Source lines 297-317: resolve_menu_images, starting with an empty
seen set. -/
def resolve_menu_images (fetchFn : Int → Option (List Nat × Bool))
    (candidate_dates : List Int) : Option (Int × List Nat × Bool) × List Int :=
  resolve_menu_images_aux fetchFn candidate_dates []

/-- A timezone-aware datetime: day number plus minutes past midnight. -/
structure DateTime where
  day : Int
  minutes : Nat
deriving DecidableEq

/-- OPEN_TIME = time(11, 30) as minutes past midnight. -/
def OPEN_TIME : Nat := 11 * 60 + 30

/-- RETRY_DELAY = timedelta(minutes=5) as minutes. -/
def RETRY_DELAY : Nat := 5

/-- Adding timedelta(days=k) to a datetime keeps the wall-clock time. -/
def addDays (t : DateTime) (k : Int) : DateTime := ⟨t.day + k, t.minutes⟩

/-- Adding a timedelta of k minutes to a datetime, rolling over
midnight. -/
def addMinutes (t : DateTime) (k : Nat) : DateTime :=
  ⟨t.day + Int.ofNat ((t.minutes + k) / 1440), (t.minutes + k) % 1440⟩

/-- Source line 385: _move_to_auto_time replaces the time of day with
OPEN_TIME, keeping the date. -/
def _move_to_auto_time (reference : DateTime) : DateTime :=
  ⟨reference.day, OPEN_TIME⟩

/-- One fuel-indexed unrolling of the while loop of _align_to_weekday.
The loop advances one day at a time while the date is a Saturday or
Sunday, so it runs at most two iterations; fuel 7 is more than enough
and is proved sufficient below. -/
def align_aux : Nat → DateTime → DateTime
  | 0, t => t
  | f + 1, t => if 5 ≤ weekday t.day then align_aux f (addDays t 1) else t

/-- Source lines 394-398: _align_to_weekday. -/
def _align_to_weekday (target : DateTime) : DateTime := align_aux 7 target

/-- The datetime comparison target <= reference used by
get_initial_auto_post_time: lexicographic on day then minutes. -/
def DateTime.le (a b : DateTime) : Prop :=
  a.day < b.day ∨ (a.day = b.day ∧ a.minutes ≤ b.minutes)

instance (a b : DateTime) : Decidable (DateTime.le a b) :=
  inferInstanceAs (Decidable (a.day < b.day ∨ (a.day = b.day ∧ a.minutes ≤ b.minutes)))

/-- Source lines 400-405: get_initial_auto_post_time. The target is
today at OPEN_TIME, moved to tomorrow if that is not strictly in the
future, then aligned forward to a weekday. -/
def get_initial_auto_post_time (reference : DateTime) : DateTime :=
  if DateTime.le (_move_to_auto_time reference) reference then
    _align_to_weekday (_move_to_auto_time (addDays reference 1))
  else
    _align_to_weekday (_move_to_auto_time reference)

/-- Source lines 407-410: get_next_day_auto_post_time. Tomorrow at
OPEN_TIME, aligned forward to a weekday. -/
def get_next_day_auto_post_time (reference : DateTime) : DateTime :=
  _align_to_weekday (_move_to_auto_time (addDays reference 1))

/-- Source lines 412-417: get_retry_auto_post_time. The reference plus
RETRY_DELAY, except that a candidate landing on a weekend is replaced by
get_next_day_auto_post_time of the candidate. -/
def get_retry_auto_post_time (reference : DateTime) : DateTime :=
  if 5 ≤ weekday (addMinutes reference RETRY_DELAY).day then
    get_next_day_auto_post_time (addMinutes reference RETRY_DELAY)
  else addMinutes reference RETRY_DELAY

/-- The while loop of build_candidate_dates at source lines 438-442,
unrolled on the remaining attempt budget (21 minus attempts already
made): while the collected list is shorter than total_needed and
attempts remain, append the current day if it is a weekday and step one
day back. -/
def bcdLoop : Int → List Int → Nat → Nat → List Int
  | _, dates, _, 0 => dates
  | current, dates, total_needed, f + 1 =>
    if dates.length < total_needed then
      bcdLoop (current - 1)
        (if weekday current < 5 then dates ++ [current] else dates)
        total_needed f
    else dates

/-- One fuel-indexed unrolling of the fallback while loop at source
lines 446-447, which steps backward from today until it reaches a
weekday; it runs at most two iterations, and fuel 7 is proved
sufficient below. -/
def fallback_weekday_aux : Nat → Int → Int
  | 0, d => d
  | f + 1, d => if 5 ≤ weekday d then fallback_weekday_aux f (d - 1) else d

/-- The state of build_candidate_dates just before the fallback check:
the seed list (today when included and a weekday), total_needed, and the
walk backward from yesterday with the 21-attempt budget. -/
def bcdResult (today : Int) (include_today : Bool) (max_entries : Nat) : List Int :=
  bcdLoop (today - 1)
    (if include_today ∧ weekday today < 5 then [today] else [])
    (max_entries + (if include_today ∧ weekday today < 5 then 1 else 0))
    21

/-- Source lines 429-450: build_candidate_dates. When the walk produced
nothing, the nearest prior weekday to today is returned alone. The
source default for max_entries is 5; callers here pass it explicitly. -/
def build_candidate_dates (today : Int) (include_today : Bool) (max_entries : Nat) :
    List Int :=
  if bcdResult today include_today max_entries = [] then
    [fallback_weekday_aux 7 today]
  else bcdResult today include_today max_entries

/-- Source lines 453-466: determine_command_scenario. now is already in
the Romania time zone; the date is its day number and the time of day
its minutes. All calls to build_candidate_dates use the source default
max_entries of 5. -/
def determine_command_scenario (cantina : CantinaConfig) (now : DateTime) :
    String × List Int :=
  if 5 ≤ weekday now.day then
    ("weekend", build_candidate_dates now.day false 5)
  else if now.minutes < OPEN_TIME then
    ("before_open", build_candidate_dates now.day false 5)
  else if cantina.close_time < now.minutes then
    ("after_close", build_candidate_dates now.day true 5)
  else
    ("open", build_candidate_dates now.day true 5)

/-- Round-major concatenation of r copies of the candidate list: the
trace left by r fully failing retry rounds. -/
def repRounds (r : Nat) (urls : List Str) : List Str :=
  match r with
  | 0 => []
  | k + 1 => urls ++ repRounds k urls

/-- Unrolling one step of the weekday-alignment loop. -/
theorem align_aux_succ (f : Nat) (t : DateTime) :
    align_aux (f + 1) t = if 5 ≤ weekday t.day then align_aux f (addDays t 1) else t :=
  rfl

/-- A datetime already on a weekday is left unchanged by alignment. -/
theorem align_to_weekday_id (t : DateTime) (h : weekday t.day < 5) :
    _align_to_weekday t = t := by
  unfold _align_to_weekday
  rw [align_aux_succ, if_neg (by omega)]

/-- A Saturday is aligned two days forward. -/
theorem align_to_weekday_sat (t : DateTime) (h : weekday t.day = 5) :
    _align_to_weekday t = ⟨t.day + 2, t.minutes⟩ := by
  unfold _align_to_weekday
  rw [align_aux_succ, if_pos (by omega)]
  show align_aux 6 ⟨t.day + 1, t.minutes⟩ = _
  rw [align_aux_succ,
    if_pos (show 5 ≤ weekday (⟨t.day + 1, t.minutes⟩ : DateTime).day by
      unfold weekday at h ⊢; dsimp only; omega)]
  show align_aux 5 ⟨t.day + 1 + 1, t.minutes⟩ = _
  rw [align_aux_succ,
    if_neg (show ¬ 5 ≤ weekday (⟨t.day + 1 + 1, t.minutes⟩ : DateTime).day by
      unfold weekday at h ⊢; dsimp only; omega)]
  have h2 : t.day + 1 + 1 = t.day + 2 := by omega
  rw [h2]

/-- A Sunday is aligned one day forward. -/
theorem align_to_weekday_sun (t : DateTime) (h : weekday t.day = 6) :
    _align_to_weekday t = ⟨t.day + 1, t.minutes⟩ := by
  unfold _align_to_weekday
  rw [align_aux_succ, if_pos (by omega)]
  show align_aux 6 ⟨t.day + 1, t.minutes⟩ = _
  rw [align_aux_succ,
    if_neg (show ¬ 5 ≤ weekday (⟨t.day + 1, t.minutes⟩ : DateTime).day by
      unfold weekday at h ⊢; dsimp only; omega)]

/-- Weekday alignment always lands on a weekday. -/
theorem align_to_weekday_lt (t : DateTime) :
    weekday (_align_to_weekday t).day < 5 := by
  have h : weekday t.day < 5 ∨ weekday t.day = 5 ∨ weekday t.day = 6 := by
    unfold weekday; omega
  rcases h with h | h | h
  · rw [align_to_weekday_id t h]; exact h
  · rw [align_to_weekday_sat t h]; unfold weekday at h ⊢; dsimp only; omega
  · rw [align_to_weekday_sun t h]; unfold weekday at h ⊢; dsimp only; omega

/-- Unrolling one step of the fallback loop. -/
theorem fallback_weekday_aux_succ (f : Nat) (d : Int) :
    fallback_weekday_aux (f + 1) d =
      if 5 ≤ weekday d then fallback_weekday_aux f (d - 1) else d :=
  rfl

/-- The fallback walk of build_candidate_dates reaches a weekday. -/
theorem fallback_weekday_lt (d : Int) : weekday (fallback_weekday_aux 7 d) < 5 := by
  have h : weekday d < 5 ∨ weekday d = 5 ∨ weekday d = 6 := by unfold weekday; omega
  rcases h with h | h | h
  · rw [fallback_weekday_aux_succ, if_neg (by omega)]; exact h
  · rw [fallback_weekday_aux_succ, if_pos (by omega), fallback_weekday_aux_succ,
      if_neg (show ¬ 5 ≤ weekday (d - 1) by unfold weekday at h ⊢; omega)]
    unfold weekday at h ⊢; omega
  · rw [fallback_weekday_aux_succ, if_pos (by omega), fallback_weekday_aux_succ,
      if_pos (show 5 ≤ weekday (d - 1) by unfold weekday at h ⊢; omega),
      fallback_weekday_aux_succ,
      if_neg (show ¬ 5 ≤ weekday (d - 1 - 1) by unfold weekday at h ⊢; omega)]
    unfold weekday at h ⊢; omega

/-- C6: for every weekday timestamp T, get_next_day_auto_post_time T is at
the opening time of day (11:30, OPEN_TIME), on a weekday strictly after
the date of T, and on the earliest such weekday. This is the target the
auto-post loop installs after a successful autonomous delivery at T
(source lines 599-603). -/
theorem next_day_schedule_spec (T : DateTime) (h : weekday T.day < 5) :
    (get_next_day_auto_post_time T).minutes = OPEN_TIME ∧
    T.day < (get_next_day_auto_post_time T).day ∧
    weekday (get_next_day_auto_post_time T).day < 5 ∧
    ∀ e : Int, T.day < e → weekday e < 5 → (get_next_day_auto_post_time T).day ≤ e := by
  have hmv : get_next_day_auto_post_time T = _align_to_weekday ⟨T.day + 1, OPEN_TIME⟩ := rfl
  have hc : weekday (T.day + 1) < 5 ∨ weekday (T.day + 1) = 5 := by
    unfold weekday at h ⊢; omega
  rcases hc with hc | hc
  · rw [hmv, align_to_weekday_id ⟨T.day + 1, OPEN_TIME⟩ hc]
    refine ⟨rfl, by dsimp only; omega, hc, ?_⟩
    intro e he hw
    dsimp only
    omega
  · rw [hmv, align_to_weekday_sat ⟨T.day + 1, OPEN_TIME⟩ hc]
    refine ⟨rfl, by dsimp only; omega, ?_, ?_⟩
    · unfold weekday at hc ⊢
      dsimp only
      omega
    · intro e he hw
      unfold weekday at hc hw
      dsimp only
      omega

/-- C6 witness: for a Monday reference at midnight, the recomputed target
is the next day (Tuesday) at opening time, and no earlier weekday after
Monday exists. -/
theorem next_day_schedule_spec_witness :
    (get_next_day_auto_post_time ⟨0, 0⟩).minutes = OPEN_TIME ∧
    (0 : Int) < (get_next_day_auto_post_time ⟨0, 0⟩).day ∧
    weekday (get_next_day_auto_post_time ⟨0, 0⟩).day < 5 ∧
    (get_next_day_auto_post_time ⟨0, 0⟩).day ≤ 1 := by
  obtain ⟨h1, h2, h3, h4⟩ := next_day_schedule_spec ⟨0, 0⟩ (by decide)
  exact ⟨h1, h2, h3, h4 1 (by decide) (by decide)⟩

/-- C7: after a delivery failure at T, if T plus the five-minute retry
delay lands on a Saturday the recomputed target is the opening time of
the following Monday (two days later, weekday 0); if it lands on a
weekday the target is exactly T plus five minutes. -/
theorem retry_reschedule_spec (T : DateTime) :
    (weekday (addMinutes T RETRY_DELAY).day = 5 →
      get_retry_auto_post_time T =
        ⟨(addMinutes T RETRY_DELAY).day + 2, OPEN_TIME⟩ ∧
      weekday ((addMinutes T RETRY_DELAY).day + 2) = 0) ∧
    (weekday (addMinutes T RETRY_DELAY).day < 5 →
      get_retry_auto_post_time T = addMinutes T RETRY_DELAY) := by
  constructor
  · intro h
    constructor
    · unfold get_retry_auto_post_time
      rw [if_pos (by omega)]
      have hmv : get_next_day_auto_post_time (addMinutes T RETRY_DELAY) =
          _align_to_weekday ⟨(addMinutes T RETRY_DELAY).day + 1, OPEN_TIME⟩ := rfl
      rw [hmv, align_to_weekday_sun ⟨(addMinutes T RETRY_DELAY).day + 1, OPEN_TIME⟩
        (by unfold weekday at h ⊢; dsimp only; omega)]
      have h2 : (addMinutes T RETRY_DELAY).day + 1 + 1 =
          (addMinutes T RETRY_DELAY).day + 2 := by omega
      dsimp only
      rw [h2]
    · unfold weekday at h ⊢
      omega
  · intro h
    unfold get_retry_auto_post_time
    rw [if_neg (by omega)]

/-- C7 witness: a failure on a Friday evening whose retry lands on
Saturday (day 5) is rescheduled to Monday (day 7) at opening time, and a
failure whose retry stays on Monday keeps the five-minute delay. -/
theorem retry_reschedule_spec_witness :
    get_retry_auto_post_time ⟨5, 0⟩ =
      ⟨(addMinutes ⟨5, 0⟩ RETRY_DELAY).day + 2, OPEN_TIME⟩ ∧
    weekday ((addMinutes ⟨5, 0⟩ RETRY_DELAY).day + 2) = 0 ∧
    get_retry_auto_post_time ⟨0, 0⟩ = addMinutes ⟨0, 0⟩ RETRY_DELAY := by
  obtain ⟨ha, hb⟩ := (retry_reschedule_spec ⟨5, 0⟩).1 (by decide)
  exact ⟨ha, hb, (retry_reschedule_spec ⟨0, 0⟩).2 (by decide)⟩

/-- C10: every timestamp the scheduler can install as the next autonomous
attempt falls on a weekday, whichever of the three producers computed it
and whatever the reference time. set_next_auto_post (source lines
419-426) stores its argument unchanged, so the invariant on the
producers is the invariant on next_auto_post_at. -/
theorem scheduler_weekday_invariant (reference : DateTime) :
    weekday (get_initial_auto_post_time reference).day < 5 ∧
    weekday (get_next_day_auto_post_time reference).day < 5 ∧
    weekday (get_retry_auto_post_time reference).day < 5 := by
  refine ⟨?_, ?_, ?_⟩
  · unfold get_initial_auto_post_time
    split_ifs with h
    · exact align_to_weekday_lt _
    · exact align_to_weekday_lt _
  · unfold get_next_day_auto_post_time
    exact align_to_weekday_lt _
  · unfold get_retry_auto_post_time
    split_ifs with h
    · unfold get_next_day_auto_post_time
      exact align_to_weekday_lt _
    · omega

/-- Unrolling one step of the build_candidate_dates walk. -/
theorem bcdLoop_succ (current : Int) (dates : List Int) (total_needed f : Nat) :
    bcdLoop current dates total_needed (f + 1) =
      if dates.length < total_needed then
        bcdLoop (current - 1)
          (if weekday current < 5 then dates ++ [current] else dates)
          total_needed f
      else dates :=
  rfl

/-- The walk never grows the list beyond total_needed. -/
theorem bcdLoop_length (total f : Nat) :
    ∀ (current : Int) (dates : List Int), dates.length ≤ total →
      (bcdLoop current dates total f).length ≤ total := by
  induction f with
  | zero => intro c dates h; exact h
  | succ k ih =>
    intro c dates h
    rw [bcdLoop_succ]
    split_ifs with h1 h2
    · apply ih
      simp only [List.length_append, List.length_singleton]
      omega
    · apply ih
      omega
    · exact h

/-- Every date the walk adds is a weekday. -/
theorem bcdLoop_mem (total f : Nat) :
    ∀ (current : Int) (dates : List Int),
      (∀ d ∈ dates, weekday d < 5) →
      ∀ d ∈ bcdLoop current dates total f, weekday d < 5 := by
  induction f with
  | zero => intro c dates hinv d hd; exact hinv d hd
  | succ k ih =>
    intro c dates hinv d hd
    rw [bcdLoop_succ] at hd
    split_ifs at hd with h1 h2
    · refine ih (c - 1) (dates ++ [c]) ?_ d hd
      intro x hx
      rcases List.mem_append.mp hx with hx | hx
      · exact hinv x hx
      · have hxc := List.mem_singleton.mp hx
        subst hxc
        exact h2
    · exact ih (c - 1) dates hinv d hd
    · exact hinv d hd

/-- Every member of a candidate-date list built by build_candidate_dates
is a weekday, whatever the inputs. -/
theorem build_candidate_dates_mem (today : Int) (include_today : Bool)
    (max_entries : Nat) :
    ∀ d ∈ build_candidate_dates today include_today max_entries, weekday d < 5 := by
  intro d hd
  unfold build_candidate_dates at hd
  split_ifs at hd with h
  · have hdt := List.mem_singleton.mp hd
    subst hdt
    exact fallback_weekday_lt today
  · unfold bcdResult at hd
    refine bcdLoop_mem _ 21 _ _ ?_ d hd
    split_ifs with h2
    · intro x hx
      have hxt := List.mem_singleton.mp hx
      subst hxt
      exact h2.2
    · intro x hx
      simp at hx

/-- Every member of a classifier candidate list is a weekday. -/
theorem determine_scenario_mem (cantina : CantinaConfig) (now : DateTime) :
    ∀ d ∈ (determine_command_scenario cantina now).2, weekday d < 5 := by
  intro d hd
  unfold determine_command_scenario at hd
  split_ifs at hd <;> exact build_candidate_dates_mem _ _ _ d hd

/-- Every date for which resolve_menu_images invokes the fetch-render
pipeline is a weekday, for any behaviour of the pipeline. -/
theorem resolve_menu_images_trace_mem (fetchFn : Int → Option (List Nat × Bool)) :
    ∀ (l seen : List Int) (d : Int),
      d ∈ (resolve_menu_images_aux fetchFn l seen).2 → weekday d < 5 := by
  intro l
  induction l with
  | nil =>
    intro seen d hd
    simp [resolve_menu_images_aux] at hd
  | cons x rest ih =>
    intro seen d hd
    simp only [resolve_menu_images_aux] at hd
    split_ifs at hd with h1 h2
    · exact ih seen d hd
    · exact ih (x :: seen) d hd
    · cases hf : fetchFn x with
      | none =>
        rw [hf] at hd
        dsimp only at hd
        rcases List.mem_cons.mp hd with hdx | hd
        · subst hdx
          omega
        · exact ih (x :: seen) d hd
      | some p =>
        obtain ⟨im, fc⟩ := p
        rw [hf] at hd
        dsimp only at hd
        have hdx := List.mem_singleton.mp hd
        subst hdx
        omega

/-- C5: weekend exclusion. A Saturday or Sunday day number never appears
in a list produced by build_candidate_dates, never appears in the
candidate list returned by determine_command_scenario, and
resolve_menu_images never invokes the fetch-render pipeline for one
(its trace of fetched dates holds only weekdays), for all inputs. -/
theorem weekend_exclusion :
    (∀ (today : Int) (include_today : Bool) (max_entries : Nat) (d : Int),
        d ∈ build_candidate_dates today include_today max_entries → weekday d < 5) ∧
    (∀ (cantina : CantinaConfig) (now : DateTime) (d : Int),
        d ∈ (determine_command_scenario cantina now).2 → weekday d < 5) ∧
    (∀ (fetchFn : Int → Option (List Nat × Bool)) (dates : List Int) (d : Int),
        d ∈ (resolve_menu_images fetchFn dates).2 → weekday d < 5) :=
  ⟨fun today inc me d hd => build_candidate_dates_mem today inc me d hd,
   fun c now d hd => determine_scenario_mem c now d hd,
   fun f dates d hd => resolve_menu_images_trace_mem f dates [] d hd⟩

/-- C5 witness: Monday (day 0) is in the list built for itself, and the
theorem concludes it is a weekday. -/
theorem weekend_exclusion_witness :
    ((0 : Int) ∈ build_candidate_dates 0 true 5) ∧ weekday 0 < 5 :=
  ⟨by decide, weekend_exclusion.1 0 true 5 0 (by decide)⟩

/-- C4 counterexample: on a Tuesday (day 1) with include_today true and
the default max_entries of 5, build_candidate_dates returns six dates,
refuting the claim that the list holds at most five. The source seeds
the list with today and then sets total_needed to max_entries + 1. -/
theorem candidate_dates_six_counterexample :
    (build_candidate_dates 1 true 5).length = 6 := by decide

/-- C4 amended: with the default max_entries of 5, the candidate list
holds at most six dates: today (when included and a weekday) plus up to
five prior weekdays. -/
theorem candidate_dates_length_le_six (today : Int) (include_today : Bool) :
    (build_candidate_dates today include_today 5).length ≤ 6 := by
  unfold build_candidate_dates
  split_ifs with h
  · simp
  · unfold bcdResult
    split_ifs with h2
    · exact bcdLoop_length (5 + 1) 21 (today - 1) [today] (by simp)
    · exact le_trans (bcdLoop_length (5 + 0) 21 (today - 1) [] (by simp)) (by omega)

/-- C8: build_candidate_dates returns at least one date for every input;
its loops are structurally bounded (the walk by the 21-attempt budget,
the fallback by its seven-step unrolling proved sufficient above), so it
always terminates. -/
theorem fallback_termination (today : Int) (include_today : Bool) (max_entries : Nat) :
    0 < (build_candidate_dates today include_today max_entries).length := by
  unfold build_candidate_dates
  split_ifs with h
  · simp
  · exact List.length_pos.mpr h

/-- A round over URLs on which the fetch primitive always fails ends
exhausted, having fetched every URL in order. -/
theorem facpRound_all_err (f : Str → FetchOutcome) (urls : List Str)
    (h : ∀ u, f u = FetchOutcome.err) :
    facpRound f urls = (RoundResult.exhausted, urls) := by
  induction urls with
  | nil => rfl
  | cons u us ih => simp [facpRound, h u, ih]

/-- With an always-failing fetch primitive, the retry loop runs every
round over every URL and ends exhausted. -/
theorem facpLoop_all_err (fetch : Nat → Str → FetchOutcome) (urls : List Str)
    (h : ∀ a u, fetch a u = FetchOutcome.err) :
    ∀ (r a : Nat), facpLoop fetch urls a r = (RoundResult.exhausted, repRounds r urls) := by
  intro r
  induction r with
  | zero => intro a; rfl
  | succ k ih =>
    intro a
    simp [facpLoop, facpRound_all_err (fetch a) urls (h a), ih (a + 1), repRounds]

/-- The round-major trace of r rounds over the URL list has exactly
r times its length many entries. -/
theorem repRounds_length (urls : List Str) :
    ∀ r : Nat, (repRounds r urls).length = r * urls.length := by
  intro r
  induction r with
  | zero => simp [repRounds]
  | succ k ih =>
    simp only [repRounds, List.length_append, ih, Nat.succ_mul]
    omega

/-- C2: on a cache miss with a non-empty deduplicated candidate list, if
the fetch primitive fails on every call then fetch_and_cache_pdf makes
exactly retries times (number of candidates) fetch attempts, in
round-major candidate order, leaves the cache unchanged and returns
None. -/
theorem retry_bound (fetch : Nat → Str → FetchOutcome) (cache : Cache)
    (cantina : CantinaConfig) (target_date : PyDate) (retries : Nat)
    (hmiss : cacheGet cache (make_cache_key cantina.key target_date) = none)
    (hne : dedupUrls (cantina.url_builder target_date) ≠ [])
    (hfail : ∀ a u, fetch a u = FetchOutcome.err) :
    fetch_and_cache_pdf fetch cache cantina target_date retries =
      (none, cache, repRounds retries (dedupUrls (cantina.url_builder target_date))) ∧
    (repRounds retries (dedupUrls (cantina.url_builder target_date))).length =
      retries * (dedupUrls (cantina.url_builder target_date)).length := by
  constructor
  · simp only [fetch_and_cache_pdf, hmiss, if_neg hne,
      facpLoop_all_err fetch (dedupUrls (cantina.url_builder target_date)) hfail retries 1]
  · exact repRounds_length (dedupUrls (cantina.url_builder target_date)) retries

/-- A single-candidate cafeteria used to instantiate the pipeline
theorems on concrete inputs. -/
def wCantina : CantinaConfig :=
  ⟨[107], [], 885, fun _ => [[97]], true⟩

/-- A concrete date, 2024-03-05. -/
def wDate : PyDate := ⟨2024, 3, 5⟩

/-- C2 witness: with one candidate URL, an empty cache and an
always-failing fetch, three rounds fetch the URL three times and return
None. -/
theorem retry_bound_witness :
    fetch_and_cache_pdf (fun _ _ => FetchOutcome.err) [] wCantina wDate 3 =
      (none, [], repRounds 3 (dedupUrls (wCantina.url_builder wDate))) ∧
    (repRounds 3 (dedupUrls (wCantina.url_builder wDate))).length =
      3 * (dedupUrls (wCantina.url_builder wDate)).length :=
  retry_bound (fun _ _ => FetchOutcome.err) [] wCantina wDate 3 rfl
    (by decide) (fun _ _ => rfl)

/-- Reading back the key just written by a cache store. -/
theorem cacheGet_cacheStore (c : Cache) (k : Str) (v : List Nat) :
    cacheGet (cacheStore c k v) k = some v := by
  simp [cacheGet, cacheStore]

/-- C3: cache idempotence. Once a call to fetch_and_cache_pdf for a
(cafeteria, date) pair succeeds with page list P, a second call for the
same pair returns exactly P, reports served-from-cache true, leaves the
cache unchanged and performs zero fetch attempts, whatever the fetch
primitive does in the second call. -/
theorem cache_idempotence (fetch fetch2 : Nat → Str → FetchOutcome) (cache : Cache)
    (cantina : CantinaConfig) (target_date : PyDate) (retries : Nat)
    (P : List Nat) (b : Bool) (cache2 : Cache) (trace : List Str)
    (h : fetch_and_cache_pdf fetch cache cantina target_date retries =
      (some (P, b), cache2, trace)) :
    fetch_and_cache_pdf fetch2 cache2 cantina target_date retries =
      (some (P, true), cache2, []) := by
  unfold fetch_and_cache_pdf at h ⊢
  cases hc : cacheGet cache (make_cache_key cantina.key target_date) with
  | some cached =>
    simp only [hc, Prod.mk.injEq, Option.some.injEq] at h
    obtain ⟨⟨hP, hb⟩, hcache, htrace⟩ := h
    subst hP
    subst hcache
    simp only [hc]
  | none =>
    simp only [hc] at h
    by_cases he : dedupUrls (cantina.url_builder target_date) = []
    · rw [if_pos he] at h
      simp at h
    · rw [if_neg he] at h
      cases hl : facpLoop fetch (dedupUrls (cantina.url_builder target_date)) 1 retries with
      | mk res t =>
        simp only [hl] at h
        cases res with
        | exhausted => simp at h
        | emptyAbort => simp at h
        | success pages =>
          simp only [Prod.mk.injEq, Option.some.injEq] at h
          obtain ⟨⟨hP, hb⟩, hcache, htrace⟩ := h
          subst hP
          subst hcache
          simp only [cacheGet_cacheStore]

/-- An always-succeeding fetch primitive rendering one page, for the
cache idempotence witness. -/
def wFetchOk : Nat → Str → FetchOutcome := fun _ _ => FetchOutcome.ok [7]

/-- C3 witness: after a first successful call populated the cache for
wCantina and wDate, a second call returns the same page, reports
served-from-cache and fetches nothing. -/
theorem cache_idempotence_witness :
    fetch_and_cache_pdf wFetchOk
        (cacheStore [] (make_cache_key wCantina.key wDate) [7]) wCantina wDate 3 =
      (some ([7], true), cacheStore [] (make_cache_key wCantina.key wDate) [7], []) :=
  cache_idempotence wFetchOk wFetchOk [] wCantina wDate 3 [7] false
    (cacheStore [] (make_cache_key wCantina.key wDate) [7]) [[97]] (by decide)

/-- A round that fails on a prefix of the URLs and then renders an empty
document aborts the round at that URL, never reaching the remaining
candidates. -/
theorem facpRound_empty_abort (f : Str → FetchOutcome) :
    ∀ (us1 : List Str) (u : Str) (us2 : List Str),
      (∀ v ∈ us1, f v = FetchOutcome.err) → f u = FetchOutcome.ok [] →
      facpRound f (us1 ++ u :: us2) = (RoundResult.emptyAbort, us1 ++ [u]) := by
  intro us1
  induction us1 with
  | nil =>
    intro u us2 hprev hu
    simp [facpRound, hu]
  | cons v vs ih =>
    intro u us2 hprev hu
    have hv : f v = FetchOutcome.err := hprev v (by simp)
    simp [facpRound, hv, ih u us2 (fun w hw => hprev w (by simp [hw])) hu]

/-- C1 amended: when a candidate URL downloads successfully but renders
to an empty page sequence (after any failing earlier candidates in the
first round), fetch_and_cache_pdf returns None immediately: the whole
resolution terminates there, and neither the remaining candidate URLs
nor any further retry rounds are attempted. An empty render is thus not
treated like a fetch failure for retry purposes. -/
theorem empty_render_aborts (fetch : Nat → Str → FetchOutcome) (cache : Cache)
    (cantina : CantinaConfig) (target_date : PyDate) (retries : Nat)
    (us1 : List Str) (u : Str) (us2 : List Str)
    (hmiss : cacheGet cache (make_cache_key cantina.key target_date) = none)
    (hurls : dedupUrls (cantina.url_builder target_date) = us1 ++ u :: us2)
    (hprev : ∀ v ∈ us1, fetch 1 v = FetchOutcome.err)
    (hempty : fetch 1 u = FetchOutcome.ok [])
    (hr : 1 ≤ retries) :
    fetch_and_cache_pdf fetch cache cantina target_date retries =
      (none, cache, us1 ++ [u]) := by
  obtain ⟨k, rfl⟩ : ∃ k, retries = k + 1 := ⟨retries - 1, by omega⟩
  have hround := facpRound_empty_abort (fetch 1) us1 u us2 hprev hempty
  simp only [fetch_and_cache_pdf, hmiss, hurls]
  rw [if_neg (show ¬ (us1 ++ u :: us2 = []) by simp)]
  simp only [facpLoop, hround]

/-- The two-candidate cafeteria for the C1 counterexample. -/
def cxCantina : CantinaConfig :=
  ⟨[103, 97, 117], [], 885, fun _ => [[97], [98]], true⟩

/-- A fetch primitive whose first candidate renders to zero pages and
whose second candidate renders to one page. -/
def cxFetch : Nat → Str → FetchOutcome :=
  fun _ u => if u = [97] then FetchOutcome.ok [] else FetchOutcome.ok [7]

/-- C1 counterexample: with cxFetch, the first candidate URL downloads
but renders empty while the second candidate would render a page; were
an empty render treated like a fetch failure, the loop would proceed to
the second candidate and succeed. Instead fetch_and_cache_pdf returns
None after fetching only the first URL: the trace shows the second
candidate was never attempted and no further rounds ran. -/
theorem empty_render_counterexample :
    cxFetch 1 [98] = FetchOutcome.ok [7] ∧
    fetch_and_cache_pdf cxFetch [] cxCantina wDate 3 = (none, [], [[97]]) :=
  ⟨rfl, rfl⟩

/-- A single-candidate cafeteria whose document renders empty, for the
C1 amended-claim witness. -/
def wxCantina : CantinaConfig := ⟨[106], [], 885, fun _ => [[99]], false⟩

/-- C1 amended witness: a first-round empty render on the only candidate
makes the pipeline return None at once with a one-entry trace. -/
theorem empty_render_aborts_witness :
    fetch_and_cache_pdf (fun _ _ => FetchOutcome.ok []) [] wxCantina wDate 3 =
      (none, [], [[99]]) :=
  empty_render_aborts (fun _ _ => FetchOutcome.ok []) [] wxCantina wDate 3
    [] [99] [] rfl (by decide) (by intro v hv; simp at hv) rfl (by omega)

/-- C9: make_cache_key is collision-free. Under the date-field bounds
the Python date type enforces, two (cafeteria code, date) pairs map to
the same key only when both components are equal: the formatted date is
a fixed-length suffix, so the key splits uniquely back into code and
date. -/
theorem make_cache_key_collision_free (k k2 : Str) (t t2 : PyDate)
    (hy1 : t.year ≤ 9999) (hy2 : t2.year ≤ 9999)
    (hm1 : t.month ≤ 12) (hm2 : t2.month ≤ 12)
    (hd1 : t.day ≤ 31) (hd2 : t2.day ≤ 31)
    (heq : make_cache_key k t = make_cache_key k2 t2) :
    k = k2 ∧ t = t2 := by
  obtain ⟨y1, m1, d1⟩ := t
  obtain ⟨y2, m2, d2⟩ := t2
  unfold make_cache_key at heq
  have hlen : (58 :: isoDigits ⟨y1, m1, d1⟩).length =
      (58 :: isoDigits ⟨y2, m2, d2⟩).length := by
    simp [isoDigits]
  obtain ⟨hk, hrest⟩ := List.append_inj' heq hlen
  refine ⟨hk, ?_⟩
  simp only [isoDigits, List.cons.injEq] at hrest
  dsimp only at hrest hy1 hy2 hm1 hm2 hd1 hd2
  simp only [PyDate.mk.injEq]
  omega

/-- C9 witness: the injectivity theorem applied at a concrete pair. -/
theorem make_cache_key_collision_free_witness :
    ([107] : Str) = [107] ∧ (⟨2024, 3, 5⟩ : PyDate) = ⟨2024, 3, 5⟩ :=
  make_cache_key_collision_free [107] [107] ⟨2024, 3, 5⟩ ⟨2024, 3, 5⟩
    (by decide) (by decide) (by decide) (by decide) (by decide) (by decide) rfl

end CantinaBot
